import Mathlib

/-!
Verification of the donation-server backend (src/server.js).

The JavaScript source is embedded shallowly:

* `computeGrossCents` (server.js 27–30) is embedded over exact rational
  arithmetic.  The JS expression `Math.ceil((base + 30) / (1 - 0.029))`
  runs in IEEE binary64; the binary64 evaluation agrees with the exact
  rational value of `ceil ((base + 30) / (1 - 29/1000))` for every amount
  in the representable donation range (the quotient's distance to the
  nearest integer, at least `1/971` in exact arithmetic, dwarfs the
  rounding error of the division for all amounts below about 10^12
  cents), so the exact embedding is faithful on that range.

* The `/webhook` handler (server.js 35–218) is embedded as a pure
  function from an environment, the verified event, oracles for the two
  Stripe lookups and for the outcome of each email send, to a result
  record carrying the HTTP status, the response body, the list of email
  sends that were attempted, the list of Stripe lookups performed, and
  the log entries produced.  JS truthiness on optional strings
  (null / undefined / "" are falsy) is modelled by `truthy` / `jsOrD` /
  `jsOrNull`.  Insignificant template-literal indentation inside the
  HTML bodies is elided; every semantic line of the templates is kept.

* The metadata objects sent to Stripe by `/create-payment-intent`
  (server.js 340–352) and `/create-subscription` (server.js 413–425)
  are embedded as string-keyed partial maps; the JS object-spread
  `{ server fields, ...metadata }` is `jsSpread`.
-/

namespace DonationServer

/-- JS truthiness of an optional string: `null`/`undefined`/`""` are falsy. -/
def truthy : Option String → Bool
  | none => false
  | some s => !(s == "")

/-- JS `a || d` on an optional string with a string default. -/
def jsOrD (a : Option String) (d : String) : String :=
  match a with
  | none => d
  | some s => if s == "" then d else s

/-- JS `a || null` on an optional string: normalizes falsy values to `none`. -/
def jsOrNull (a : Option String) : Option String :=
  match a with
  | none => none
  | some s => if s == "" then none else some s

/-- `computeGrossCents` (server.js 27–30): gross amount when the donor covers
the 2.9% + $0.30 processing fee.  `Math.ceil((base + 30) / (1 - 0.029))` is
embedded over exact rationals (see the header comment for the binary64
faithfulness argument). -/
def computeGrossCents (baseAmountCents : ℤ) (coverFees : Bool) : ℤ :=
  if !coverFees then baseAmountCents
  else ⌈((baseAmountCents : ℚ) + 30) / (1 - 0.029)⌉

/-- Executable characterization: the rational ceiling in `computeGrossCents`
equals an integer ceiling division by 971. -/
lemma computeGrossCents_coverFees (b : ℤ) :
    computeGrossCents b true = ((b + 30) * 1000 + 970).ediv 971 := by
  rw [computeGrossCents]
  simp only [Bool.not_true, Bool.false_eq_true, if_false]
  rw [Int.ceil_eq_iff]
  have hq : (1 - 0.029 : ℚ) = 971 / 1000 := by norm_num
  have hdiv : ((b + 30) * 1000 + 970) = 971 * (((b + 30) * 1000 + 970).ediv 971) +
      ((b + 30) * 1000 + 970).emod 971 := (Int.ediv_add_emod _ _).symm
  have hlt : ((b + 30) * 1000 + 970).emod 971 < 971 := Int.emod_lt_of_pos _ (by norm_num)
  have hge : 0 ≤ ((b + 30) * 1000 + 970).emod 971 := Int.emod_nonneg _ (by norm_num)
  set n : ℤ := ((b + 30) * 1000 + 970).ediv 971 with hn
  rw [hq]
  constructor
  · rw [lt_div_iff (by norm_num : (0:ℚ) < 971/1000)]
    have h : (971 : ℤ) * (n - 1) < (b + 30) * 1000 := by omega
    have h' : (971 : ℚ) * ((n : ℚ) - 1) < ((b : ℚ) + 30) * 1000 := by exact_mod_cast h
    linarith
  · rw [div_le_iff (by norm_num : (0:ℚ) < 971/1000)]
    have h : ((b + 30) * 1000 : ℤ) ≤ 971 * n := by omega
    have h' : ((b : ℚ) + 30) * 1000 ≤ (971 : ℚ) * (n : ℚ) := by exact_mod_cast h
    linarith

/-- The metadata keys the webhook handler reads from a session, payment
intent, or subscription (`metadata.donor_name`, `metadata.phone`, …);
absent keys are `none`. -/
structure Metadata where
  donor_name : Option String := none
  phone : Option String := none
  address : Option String := none
  city : Option String := none
  state : Option String := none
  zip : Option String := none
  dedication : Option String := none
  notifyEmail : Option String := none
  subscribeToNewsletter : Option String := none
  frequency : Option String := none
deriving DecidableEq, Repr

/-- `event.data.object` of a `checkout.session.completed` event
(server.js 50–54). -/
structure CheckoutSession where
  customer_email : Option String := none
  metadata : Option Metadata := none
  amount_total : ℤ := 0
deriving DecidableEq, Repr

/-- `event.data.object` of a `payment_intent.succeeded` event
(server.js 101–110). -/
structure PaymentIntent where
  invoice : Option String := none
  amount : ℤ := 0
  receipt_email : Option String := none
  metadata : Option Metadata := none
deriving DecidableEq, Repr

/-- `event.data.object` of an `invoice.payment_succeeded` event
(server.js 155–161). -/
structure Invoice where
  amount_paid : ℤ := 0
  customer_email : Option String := none
  subscription : Option String := none
deriving DecidableEq, Repr

/-- Result of `stripe.subscriptions.retrieve` (server.js 162–164). -/
structure Subscription where
  metadata : Option Metadata := none
  customer : Option String := none
deriving DecidableEq, Repr

/-- Result of `stripe.customers.retrieve` (server.js 165–166). -/
structure Customer where
  email : Option String := none
deriving DecidableEq, Repr

/-- A verified webhook event, classified by `event.type` exactly as the
handler's three `if (event.type === …)` tests do (server.js 49, 100, 154);
any other type string falls through to the final 200 response. -/
inductive StripeEvent where
  | checkoutSessionCompleted (session : CheckoutSession)
  | paymentIntentSucceeded (pi : PaymentIntent)
  | invoicePaymentSucceeded (invoice : Invoice)
  | unrecognized (type : String)
deriving DecidableEq, Repr

/-- Environment configuration read by the webhook handler:
`SENDGRID_API_KEY`, `INTERNAL_EMAILS` (server.js 57, 76) and the dev-mode
flag `isDev = NODE_ENV !== 'production'` (server.js 24). -/
structure Env where
  sendgridApiKey : Option String := none
  internalEmails : Option String := none
  isDev : Bool := true
deriving DecidableEq, Repr

/-- A message handed to `sgMail.send` (server.js 58–70 and the five other
message literals).  `recipients` embeds the JS field `to` and `sender` the
JS field `from` (both Lean keywords); `sandboxMode` records whether
`...(isDev && { mailSettings: { sandboxMode: { enable: true } } })` added
the sandbox flag. -/
structure EmailMsg where
  recipients : List String
  sender : String
  subject : String
  html : String
  sandboxMode : Bool
deriving DecidableEq, Repr

/-- One external Stripe lookup performed during invoice enrichment. -/
inductive LookupCall where
  | subscriptionRetrieve (id : String)
  | customerRetrieve (id : String)
deriving DecidableEq, Repr

/-- One console log entry produced by the handler, one constructor per
`console.error` / `console.warn` call site class. -/
inductive LogEntry where
  | signatureFailed (message : String)
  | donorEmailFailed (tag : String)
  | internalEmailFailed (tag : String)
  | expandWarning (message : String)
deriving DecidableEq, Repr

/-- `true` exactly on the log entries written by a `catch` around
`sgMail.send` (server.js 72, 95, 127, 149, 187, 209). -/
def LogEntry.isSendFailure : LogEntry → Bool
  | .donorEmailFailed _ => true
  | .internalEmailFailed _ => true
  | _ => false

/-- The complete observable outcome of one `/webhook` delivery. -/
structure WebhookResult where
  status : ℕ
  body : String
  sends : List EmailMsg
  lookups : List LookupCall
  logs : List LogEntry
deriving DecidableEq, Repr

/-- Sender address used by every message (server.js 60 etc.). -/
def fromAddress : String := "bridgesdonations@bridgestowork.org"

/-- `(amount / 100).toFixed(2)` for an integer number of cents
(server.js 64 etc.); exact for the representable range. -/
def toFixed2Cents (cents : ℤ) : String :=
  let sign := if cents < 0 then "-" else ""
  let n := cents.natAbs
  let frac := n % 100
  sign ++ toString (n / 100) ++ "." ++ (if frac < 10 then "0" else "") ++ toString frac

/-- JS whitespace characters removed by `String.prototype.trim`. -/
def isJsSpace (c : Char) : Bool :=
  c == ' ' || c == '\t' || c == '\n' || c == '\r'

/-- `s.trim()`: strip whitespace from both ends (kernel-reducible model of
the library function). -/
def jsTrim (s : String) : String :=
  String.mk (((s.toList.dropWhile isJsSpace).reverse.dropWhile isJsSpace).reverse)

/-- `s.split(',')` over the character list (kernel-reducible model of the
library function). -/
def splitCommaAux : List Char → List Char → List String
  | [], acc => [String.mk acc.reverse]
  | c :: cs, acc =>
      if c == ',' then String.mk acc.reverse :: splitCommaAux cs []
      else splitCommaAux cs (c :: acc)

/-- `s.split(',')`. -/
def splitComma (s : String) : List String :=
  splitCommaAux s.toList []

/-- `INTERNAL_EMAILS.split(',').map(s => s.trim()).filter(Boolean)`
(server.js 78 etc.). -/
def internalRecipients (internalEmails : Option String) : List String :=
  ((splitComma (internalEmails.getD "")).map jsTrim).filter (fun s => !(s == ""))

/-- Donor subject on the checkout path (server.js 61). -/
def checkoutDonorSubject (frequency : String) : String :=
  "Thank you for your " ++ (if frequency == "monthly" then "monthly" else "one-time")
    ++ " donation!"

/-- Donor subject on the payment-intent path (server.js 116). -/
def piDonorSubject : String := "Thank you for your donation!"

/-- Donor subject on the invoice path (server.js 177). -/
def invoiceDonorSubject : String := "Thank you for your monthly donation!"

/-- Donor body shared verbatim by the checkout and payment-intent paths
(server.js 62–68 and 117–123); template-literal indentation elided. -/
def donorThanksHtml (md : Metadata) (amount : ℤ) : String :=
  "<p>Hi " ++ jsOrD md.donor_name "Friend" ++ ",</p>\n"
    ++ "<p>Thank you for your generous donation of <strong>$" ++ toFixed2Cents amount
    ++ "</strong>.</p>\n"
    ++ (if truthy md.dedication then
          "<p><strong>Dedication:</strong> " ++ md.dedication.getD "" ++ "</p>" else "")
    ++ "\n<p>We truly appreciate your support.</p>\n"
    ++ "<p>– The Bridges to Work Team</p>"

/-- Donor body on the invoice path (server.js 178–183). -/
def invoiceDonorHtml (md : Metadata) (amount : ℤ) : String :=
  "<p>Hi " ++ jsOrD md.donor_name "Friend" ++ ",</p>\n"
    ++ "<p>We received your monthly donation of <strong>$" ++ toFixed2Cents amount
    ++ "</strong>. Thank you!</p>\n"
    ++ (if truthy md.dedication then
          "<p><strong>Dedication:</strong> " ++ md.dedication.getD "" ++ "</p>" else "")
    ++ "\n<p>– The Bridges to Work Team</p>"

/-- Internal body, identical on all three paths up to the frequency string
(server.js 81–91, 135–145, 195–205). -/
def internalHtml (amount : ℤ) (frequency : String) (md : Metadata)
    (donorEmail : Option String) : String :=
  "<p><strong>Amount:</strong> $" ++ toFixed2Cents amount ++ "</p>\n"
    ++ "<p><strong>Frequency:</strong> " ++ frequency ++ "</p>\n"
    ++ "<p><strong>Name:</strong> " ++ jsOrD md.donor_name "N/A" ++ "</p>\n"
    ++ "<p><strong>Email:</strong> " ++ jsOrD donorEmail "N/A" ++ "</p>\n"
    ++ "<p><strong>Phone:</strong> " ++ jsOrD md.phone "N/A" ++ "</p>\n"
    ++ "<p><strong>Address:</strong> " ++ jsOrD md.address "" ++ ", " ++ jsOrD md.city ""
    ++ ", " ++ jsOrD md.state "" ++ ", " ++ jsOrD md.zip "" ++ "</p>\n"
    ++ (if truthy md.dedication then
          "<p><strong>Dedication:</strong> " ++ md.dedication.getD "" ++ "</p>" else "")
    ++ "\n"
    ++ (if truthy md.notifyEmail then
          "<p><strong>Acknowledgement Email To:</strong> " ++ md.notifyEmail.getD ""
            ++ "</p>" else "")
    ++ "\n<p><strong>Subscribed to Newsletter:</strong> "
    ++ (if md.subscribeToNewsletter == some "Yes" then "Yes" else "No") ++ "</p>"

/-- `donorMsg` on the checkout path (server.js 58–70). -/
def checkoutDonorMsg (env : Env) (donorEmail : String) (md : Metadata) (amount : ℤ)
    (frequency : String) : EmailMsg :=
  { recipients := [donorEmail], sender := fromAddress,
    subject := checkoutDonorSubject frequency,
    html := donorThanksHtml md amount,
    sandboxMode := env.isDev }

/-- `internalMsg` on the checkout path (server.js 77–93). -/
def checkoutInternalMsg (env : Env) (donorEmail : Option String) (md : Metadata)
    (amount : ℤ) (frequency : String) : EmailMsg :=
  { recipients := internalRecipients env.internalEmails, sender := fromAddress,
    subject := "New Donation via Stripe: $" ++ toFixed2Cents amount ++ " from "
      ++ jsOrD md.donor_name "Unknown",
    html := internalHtml amount frequency md donorEmail,
    sandboxMode := env.isDev }

/-- `donorMsg` on the payment-intent path (server.js 113–125). -/
def piDonorMsg (env : Env) (donorEmail : String) (md : Metadata) (amount : ℤ) : EmailMsg :=
  { recipients := [donorEmail], sender := fromAddress,
    subject := piDonorSubject,
    html := donorThanksHtml md amount,
    sandboxMode := env.isDev }

/-- `internalMsg` on the payment-intent path (server.js 131–147). -/
def piInternalMsg (env : Env) (donorEmail : Option String) (md : Metadata)
    (amount : ℤ) : EmailMsg :=
  { recipients := internalRecipients env.internalEmails, sender := fromAddress,
    subject := "New Donation: $" ++ toFixed2Cents amount ++ " from "
      ++ jsOrD md.donor_name "Unknown",
    html := internalHtml amount "one_time" md donorEmail,
    sandboxMode := env.isDev }

/-- `donorMsg` on the invoice path (server.js 174–185). -/
def invoiceDonorMsg (env : Env) (donorEmail : String) (md : Metadata) (amount : ℤ) :
    EmailMsg :=
  { recipients := [donorEmail], sender := fromAddress,
    subject := invoiceDonorSubject,
    html := invoiceDonorHtml md amount,
    sandboxMode := env.isDev }

/-- `internalMsg` on the invoice path (server.js 191–207). -/
def invoiceInternalMsg (env : Env) (donorEmail : Option String) (md : Metadata)
    (amount : ℤ) : EmailMsg :=
  { recipients := internalRecipients env.internalEmails, sender := fromAddress,
    subject := "Monthly Donation Received: $" ++ toFixed2Cents amount ++ " from "
      ++ jsOrD md.donor_name "Unknown",
    html := internalHtml amount "monthly" md donorEmail,
    sandboxMode := env.isDev }

/-- `try { await sgMail.send(msg) } catch (err) { console.error(…) }`: the
send is always attempted; a failed outcome only adds a log entry. -/
def attemptSend (sendOk : EmailMsg → Bool) (msg : EmailMsg) (failLog : LogEntry) :
    List EmailMsg × List LogEntry :=
  ([msg], if sendOk msg then [] else [failLog])

/-- The common shape of every handling path: two guarded, independent
`try { await sgMail.send } catch { log }` blocks run in sequence — the
donor block, then the internal block. -/
def twoSends (sendOk : EmailMsg → Bool) (donorCond : Bool) (donorMsg : EmailMsg)
    (donorLog : LogEntry) (internalCond : Bool) (internalMsg : EmailMsg)
    (internalLog : LogEntry) : List EmailMsg × List LogEntry :=
  let donorPart := if donorCond then attemptSend sendOk donorMsg donorLog else ([], [])
  let internalPart :=
    if internalCond then attemptSend sendOk internalMsg internalLog else ([], [])
  (donorPart.1 ++ internalPart.1, donorPart.2 ++ internalPart.2)

/-- Body of the `checkout.session.completed` branch (server.js 49–97):
attempted sends and log entries. -/
def handleCheckout (env : Env) (sendOk : EmailMsg → Bool) (session : CheckoutSession) :
    List EmailMsg × List LogEntry :=
  let donorEmail := session.customer_email
  let metadata := session.metadata.getD {}
  let amount := session.amount_total
  let frequency := jsOrD metadata.frequency "one_time"
  twoSends sendOk
    (truthy env.sendgridApiKey && truthy donorEmail)
    (checkoutDonorMsg env (donorEmail.getD "") metadata amount frequency)
    (.donorEmailFailed "checkout")
    (truthy env.sendgridApiKey && truthy env.internalEmails)
    (checkoutInternalMsg env donorEmail metadata amount frequency)
    (.internalEmailFailed "checkout")

/-- Body of the `payment_intent.succeeded` branch after the invoice
short-circuit (server.js 108–150). -/
def handlePaymentIntent (env : Env) (sendOk : EmailMsg → Bool) (pi : PaymentIntent) :
    List EmailMsg × List LogEntry :=
  let amount := pi.amount
  let donorEmail := jsOrNull pi.receipt_email
  let md := pi.metadata.getD {}
  twoSends sendOk
    (truthy env.sendgridApiKey && donorEmail.isSome)
    (piDonorMsg env (donorEmail.getD "") md amount)
    (.donorEmailFailed "PI")
    (truthy env.sendgridApiKey && truthy env.internalEmails)
    (piInternalMsg env donorEmail md amount)
    (.internalEmailFailed "PI")

/-- Outcome of the subscription/customer expansion in the invoice branch. -/
structure Enrichment where
  donorEmail : Option String
  md : Metadata
  lookups : List LookupCall
  warnings : List LogEntry
deriving DecidableEq, Repr

/-- The `try { if (invoice.subscription) { … } } catch (e) { console.warn(…) }`
block of the invoice branch (server.js 157–171): resolves the donor email and
metadata, recording the Stripe lookups performed and any warning logged.  A
lookup failure is caught: the values assigned so far are kept. -/
def expandInvoice (subsRetrieve : String → Except String Subscription)
    (custRetrieve : String → Except String Customer) (invoice : Invoice) : Enrichment :=
  let donorEmail := jsOrNull invoice.customer_email
  match jsOrNull invoice.subscription with
  | none => ⟨donorEmail, {}, [], []⟩
  | some subId =>
    match subsRetrieve subId with
    | .error e => ⟨donorEmail, {}, [.subscriptionRetrieve subId], [.expandWarning e]⟩
    | .ok sub =>
      let md := sub.metadata.getD {}
      if donorEmail.isNone && truthy sub.customer then
        let custId := sub.customer.getD ""
        match custRetrieve custId with
        | .error e =>
            ⟨donorEmail, md, [.subscriptionRetrieve subId, .customerRetrieve custId],
             [.expandWarning e]⟩
        | .ok c =>
            ⟨(jsOrNull c.email).orElse (fun _ => donorEmail), md,
             [.subscriptionRetrieve subId, .customerRetrieve custId], []⟩
      else ⟨donorEmail, md, [.subscriptionRetrieve subId], []⟩

/-- Sends and logs of the invoice branch after enrichment
(server.js 173–210). -/
def handleInvoice (env : Env) (sendOk : EmailMsg → Bool) (donorEmail : Option String)
    (md : Metadata) (amount : ℤ) : List EmailMsg × List LogEntry :=
  twoSends sendOk
    (truthy env.sendgridApiKey && donorEmail.isSome)
    (invoiceDonorMsg env (donorEmail.getD "") md amount)
    (.donorEmailFailed "invoice")
    (truthy env.sendgridApiKey && truthy env.internalEmails)
    (invoiceInternalMsg env donorEmail md amount)
    (.internalEmailFailed "invoice")

/-- The `/webhook` handler after successful signature verification
(server.js 47–217), as a function of the environment, the lookup oracles,
the send-outcome oracle, and the classified event. -/
def webhookHandler (env : Env)
    (subsRetrieve : String → Except String Subscription)
    (custRetrieve : String → Except String Customer)
    (sendOk : EmailMsg → Bool) : StripeEvent → WebhookResult
  | .checkoutSessionCompleted session =>
      let p := handleCheckout env sendOk session
      { status := 200, body := "", sends := p.1, lookups := [], logs := p.2 }
  | .paymentIntentSucceeded pi =>
      if truthy pi.invoice then
        { status := 200, body := "", sends := [], lookups := [], logs := [] }
      else
        let p := handlePaymentIntent env sendOk pi
        { status := 200, body := "", sends := p.1, lookups := [], logs := p.2 }
  | .invoicePaymentSucceeded invoice =>
      let e := expandInvoice subsRetrieve custRetrieve invoice
      let p := handleInvoice env sendOk e.donorEmail e.md invoice.amount_paid
      { status := 200, body := "", sends := p.1, lookups := e.lookups,
        logs := e.warnings ++ p.2 }
  | .unrecognized _ =>
      { status := 200, body := "", sends := [], lookups := [], logs := [] }

/-- Modelled from the spec: `stripe.webhooks.constructEvent` (Stripe SDK
code, not part of this repository) recomputes an authenticity signature
over the raw request body using the shared secret, rejects a missing,
malformed, or mismatched `stripe-signature` header, and otherwise parses
the raw body into the event.  `sign` abstracts the signature recomputation
and `parse` the JSON parse of the raw body. -/
def constructEvent (sign : String → String → String) (parse : String → StripeEvent)
    (secret rawBody : String) (sigHeader : Option String) : Except String StripeEvent :=
  match sigHeader with
  | none => .error "missing stripe-signature header"
  | some s =>
      if s == sign secret rawBody then .ok (parse rawBody)
      else .error "signature verification failed"

/-- The full `POST /webhook` endpoint (server.js 35–218): verification
first; a verification failure returns 400 with an error-message body and
performs nothing else. -/
def webhookPost (env : Env) (sign : String → String → String)
    (parse : String → StripeEvent) (secret : String)
    (subsRetrieve : String → Except String Subscription)
    (custRetrieve : String → Except String Customer)
    (sendOk : EmailMsg → Bool) (rawBody : String) (sigHeader : Option String) :
    WebhookResult :=
  match constructEvent sign parse secret rawBody sigHeader with
  | .error e =>
      { status := 400, body := "Webhook Error: " ++ e, sends := [], lookups := [],
        logs := [.signatureFailed e] }
  | .ok event => webhookHandler env subsRetrieve custRetrieve sendOk event

/-- The frequency under which each classified path handles its donation, as
the handler renders it: the checkout path uses `metadata.frequency ||
'one_time'` (server.js 54), the payment-intent path is hard-coded
`one_time` (server.js 137), the invoice path hard-coded `monthly`
(server.js 197); `none` on the unhandled paths. -/
def handledFrequency : StripeEvent → Option String
  | .checkoutSessionCompleted session =>
      some (jsOrD (session.metadata.getD {}).frequency "one_time")
  | .paymentIntentSucceeded pi => if truthy pi.invoice then none else some "one_time"
  | .invoicePaymentSucceeded _ => some "monthly"
  | .unrecognized _ => none

/-- The donor-message subject each classified path composes (server.js 61,
116, 177); `none` on paths that compose no donor message at all. -/
def handledDonorSubject : StripeEvent → Option String
  | .checkoutSessionCompleted session =>
      some (checkoutDonorSubject (jsOrD (session.metadata.getD {}).frequency "one_time"))
  | .paymentIntentSucceeded pi => if truthy pi.invoice then none else some piDonorSubject
  | .invoicePaymentSucceeded _ => some invoiceDonorSubject
  | .unrecognized _ => none

/-- Charged total of `POST /create-payment-intent` (server.js 329–333):
`const base = Number(metadata.base_amount_cents || 0); const totalCents =
base > 0 ? computeGrossCents(base, { coverFees }) : Number(amountCents)`. -/
def createPaymentIntentTotal (amountCents : ℤ) (coverFees : Bool)
    (base_amount_cents : Option ℤ) : ℤ :=
  let base := base_amount_cents.getD 0
  if base > 0 then computeGrossCents base coverFees else amountCents

/-- A JS object with string values, as a string-keyed partial map. -/
def StrMap : Type := String → Option String

/-- JS object spread `{ ...base, ...override }`: a key present in
`override` wins. -/
def jsSpread (base override : StrMap) : StrMap :=
  fun k => match override k with
  | some v => some v
  | none => base k

/-- JS `String(x)` on an optional value (`String(undefined) = "undefined"`). -/
def jsString (o : Option String) : String :=
  match o with
  | none => "undefined"
  | some s => s

/-- `metadata` object sent by `POST /create-payment-intent`
(server.js 340–352): server-normalized fields first, then
`...metadata` spread over them. -/
def createPaymentIntentMetadata (donorName : Option String) (metadata : StrMap) : StrMap :=
  let server : StrMap := fun k =>
    if k == "donor_name" then some (jsOrD donorName "")
    else if k == "phone" then some (jsOrD (metadata "phone") "")
    else if k == "address" then some (jsOrD (metadata "address1") "")
    else if k == "city" then some (jsOrD (metadata "city") "")
    else if k == "state" then some (jsOrD (metadata "state") "")
    else if k == "zip" then some (jsOrD (metadata "zip") "")
    else if k == "dedication" then some (jsOrD (metadata "dedication_text") "")
    else if k == "notifyEmail" then some (jsOrD (metadata "notify_email") "")
    else if k == "subscribeToNewsletter" then
      some (if jsString (metadata "newsletter_opt_in") == "true" then "Yes" else "No")
    else if k == "frequency" then some "one_time"
    else none
  jsSpread server metadata

/-- `metadata` object sent by `POST /create-subscription`
(server.js 413–425): server-normalized fields first, then
`...metadata` spread over them. -/
def createSubscriptionMetadata (metadata : StrMap) : StrMap :=
  let server : StrMap := fun k =>
    if k == "frequency" then some "monthly"
    else if k == "donor_name" then
      some (jsTrim (jsOrD (metadata "first_name") "" ++ " " ++ jsOrD (metadata "last_name") ""))
    else if k == "phone" then some (jsOrD (metadata "phone") "")
    else if k == "address" then some (jsOrD (metadata "address1") "")
    else if k == "city" then some (jsOrD (metadata "city") "")
    else if k == "state" then some (jsOrD (metadata "state") "")
    else if k == "zip" then some (jsOrD (metadata "zip") "")
    else if k == "dedication" then some (jsOrD (metadata "dedication_text") "")
    else if k == "notifyEmail" then some (jsOrD (metadata "notify_email") "")
    else if k == "subscribeToNewsletter" then
      some (if jsString (metadata "newsletter_opt_in") == "true" then "Yes" else "No")
    else none
  jsSpread server metadata

/-- Concrete oracle: every send succeeds. -/
def alwaysSendOk : EmailMsg → Bool := fun _ => true

/-- Concrete oracle: every subscription lookup fails. -/
def noSubsLookup : String → Except String Subscription := fun _ => .error "lookup unavailable"

/-- Concrete oracle: every customer lookup fails. -/
def noCustLookup : String → Except String Customer := fun _ => .error "lookup unavailable"

/-- Concrete signature function for instantiating the verification model. -/
def signConcat : String → String → String := fun secret rawBody => secret ++ "." ++ rawBody

/-- Concrete parse function for instantiating the verification model. -/
def parseUnrecognized : String → StripeEvent := fun _ => .unrecognized "ignored"

/-- C1: for every non-negative `baseAmountCents`, `computeGrossCents` with
`coverFees = false` returns `baseAmountCents` unchanged, and with
`coverFees = true` the concrete values hold:
`computeGrossCents 1000 true = 1061` and `computeGrossCents 0 true = 31`. -/
theorem c1_computeGross_identity_and_values :
    (∀ base : ℤ, 0 ≤ base → computeGrossCents base false = base) ∧
    computeGrossCents 1000 true = 1061 ∧ computeGrossCents 0 true = 31 := by
  refine ⟨fun base _ => rfl, ?_, ?_⟩ <;> rw [computeGrossCents_coverFees] <;> decide

/-- Witness for C1: the universally quantified part applied at 5. -/
theorem c1_computeGross_identity_and_values_witness :
    (0 : ℤ) ≤ 5 ∧ computeGrossCents 5 false = 5 :=
  ⟨by decide, c1_computeGross_identity_and_values.1 5 (by decide)⟩

/-- C6: for every non-negative `baseAmountCents`, the `coverFees = true`
result is the smallest integer `g` with `g - (2.9% · g + 30) ≥ base`, and
equals `⌈(base + 30) / (1 - 0.029)⌉`. -/
theorem c6_computeGross_smallest_covering_gross (base : ℤ) (hbase : 0 ≤ base) :
    ((computeGrossCents base true : ℚ) -
        (29 / 1000 * (computeGrossCents base true : ℚ) + 30) ≥ (base : ℚ)) ∧
    (∀ g : ℤ, ((g : ℚ) - (29 / 1000 * (g : ℚ) + 30) ≥ (base : ℚ)) →
        computeGrossCents base true ≤ g) ∧
    computeGrossCents base true = ⌈((base : ℚ) + 30) / (1 - 0.029)⌉ := by
  have hg : computeGrossCents base true = ⌈((base : ℚ) + 30) / (1 - 0.029)⌉ := by
    rw [computeGrossCents]; rfl
  have h0 : (0 : ℚ) < 1 - 0.029 := by norm_num
  have key : ∀ g : ℤ, ((g : ℚ) - (29 / 1000 * (g : ℚ) + 30) ≥ (base : ℚ)) ↔
      ((base : ℚ) + 30) / (1 - 0.029) ≤ (g : ℚ) := by
    intro g
    rw [div_le_iff h0]
    constructor <;> intro h <;> [nlinarith; nlinarith]
  refine ⟨?_, ?_, hg⟩
  · rw [hg]
    exact (key _).mpr (Int.le_ceil _)
  · intro g hgood
    rw [hg]
    exact Int.ceil_le.mpr ((key g).mp hgood)

/-- Witness for C6: applied at 1000. -/
theorem c6_computeGross_smallest_covering_gross_witness :
    (0 : ℤ) ≤ 1000 ∧
    computeGrossCents 1000 true = ⌈(((1000 : ℤ) : ℚ) + 30) / (1 - 0.029)⌉ :=
  ⟨by decide, (c6_computeGross_smallest_covering_gross 1000 (by decide)).2.2⟩

/-- C8 counterexample: `metadata.base_amount_cents` present with value 0 and
`amountCents = 500`: the claim predicts the total `computeGrossCents 0 false
= 0` and that `amountCents` is ignored, but the code charges 500. -/
theorem c8_counterexample_present_zero_base :
    createPaymentIntentTotal 500 false (some 0) = 500 ∧
    computeGrossCents 0 false = 0 ∧ (500 : ℤ) ≠ 0 :=
  ⟨rfl, rfl, by decide⟩

/-- C8 amended: the server recomputes the total from `base_amount_cents`
only when it is present AND positive; when it is absent or non-positive,
the client-supplied `amountCents` is used verbatim. -/
theorem c8_total_recomputed_when_base_positive (amountCents : ℤ) (coverFees : Bool)
    (base_amount_cents : Option ℤ) :
    (∀ base : ℤ, base_amount_cents = some base → 0 < base →
        createPaymentIntentTotal amountCents coverFees base_amount_cents =
          computeGrossCents base coverFees) ∧
    (base_amount_cents.getD 0 ≤ 0 →
        createPaymentIntentTotal amountCents coverFees base_amount_cents = amountCents) := by
  constructor
  · rintro base rfl hpos
    simp only [createPaymentIntentTotal, Option.getD_some]
    rw [if_pos hpos]
  · intro h
    simp only [createPaymentIntentTotal]
    rw [if_neg (by omega)]

/-- Witness for C8's amended theorem: applied with a positive present base
and with an absent base. -/
theorem c8_total_recomputed_when_base_positive_witness :
    createPaymentIntentTotal 500 true (some 100) = computeGrossCents 100 true ∧
    createPaymentIntentTotal 500 true none = 500 :=
  ⟨(c8_total_recomputed_when_base_positive 500 true (some 100)).1 100 rfl (by decide),
   (c8_total_recomputed_when_base_positive 500 true none).2 (by decide)⟩

/-- C9: in both creation endpoints the client metadata is spread after the
server-normalized fields, so any key present in the client metadata
overrides the server-computed value in the metadata sent to the
processor. -/
theorem c9_client_metadata_overrides_server (donorName : Option String) (m : StrMap)
    (k v : String) (h : m k = some v) :
    createPaymentIntentMetadata donorName m k = some v ∧
    createSubscriptionMetadata m k = some v := by
  constructor <;>
    simp only [createPaymentIntentMetadata, createSubscriptionMetadata, jsSpread, h]

/-- Witness for C9: a client metadata carrying `frequency = "weekly"`
overrides the server-set frequency on both endpoints. -/
theorem c9_client_metadata_overrides_server_witness :
    createPaymentIntentMetadata none
        (fun k => if k == "frequency" then some "weekly" else none) "frequency"
      = some "weekly" ∧
    createSubscriptionMetadata
        (fun k => if k == "frequency" then some "weekly" else none) "frequency"
      = some "weekly" :=
  c9_client_metadata_overrides_server none
    (fun k => if k == "frequency" then some "weekly" else none) "frequency" "weekly" rfl

/-- C2: a `/webhook` request whose signature header is missing, malformed,
or does not match the signature recomputed over the raw body returns 400
with an error-message body and performs no side effects: no email send is
attempted and no subscription/customer lookup is made. -/
theorem c2_signature_failure_rejected (env : Env) (sign : String → String → String)
    (parse : String → StripeEvent) (secret rawBody : String) (sigHeader : Option String)
    (subsRetrieve : String → Except String Subscription)
    (custRetrieve : String → Except String Customer) (sendOk : EmailMsg → Bool)
    (h : ∀ s, sigHeader = some s → s ≠ sign secret rawBody) :
    (webhookPost env sign parse secret subsRetrieve custRetrieve sendOk rawBody
        sigHeader).status = 400 ∧
    ((webhookPost env sign parse secret subsRetrieve custRetrieve sendOk rawBody
        sigHeader).body = "Webhook Error: missing stripe-signature header" ∨
     (webhookPost env sign parse secret subsRetrieve custRetrieve sendOk rawBody
        sigHeader).body = "Webhook Error: signature verification failed") ∧
    (webhookPost env sign parse secret subsRetrieve custRetrieve sendOk rawBody
        sigHeader).sends = [] ∧
    (webhookPost env sign parse secret subsRetrieve custRetrieve sendOk rawBody
        sigHeader).lookups = [] := by
  cases sigHeader with
  | none => exact ⟨rfl, Or.inl rfl, rfl, rfl⟩
  | some s =>
      have hb : (s == sign secret rawBody) = false :=
        beq_eq_false_iff_ne.mpr (h s rfl)
      simp [webhookPost, constructEvent, hb]

/-- Witness for C2: a concrete request with a wrong signature header. -/
theorem c2_signature_failure_rejected_witness :
    (webhookPost {} signConcat parseUnrecognized "whsec" noSubsLookup noCustLookup
        alwaysSendOk "rawbody" (some "bad")).status = 400 ∧
    ((webhookPost {} signConcat parseUnrecognized "whsec" noSubsLookup noCustLookup
        alwaysSendOk "rawbody" (some "bad")).body =
          "Webhook Error: missing stripe-signature header" ∨
     (webhookPost {} signConcat parseUnrecognized "whsec" noSubsLookup noCustLookup
        alwaysSendOk "rawbody" (some "bad")).body =
          "Webhook Error: signature verification failed") ∧
    (webhookPost {} signConcat parseUnrecognized "whsec" noSubsLookup noCustLookup
        alwaysSendOk "rawbody" (some "bad")).sends = [] ∧
    (webhookPost {} signConcat parseUnrecognized "whsec" noSubsLookup noCustLookup
        alwaysSendOk "rawbody" (some "bad")).lookups = [] :=
  c2_signature_failure_rejected {} signConcat parseUnrecognized "whsec" "rawbody"
    (some "bad") noSubsLookup noCustLookup alwaysSendOk
    (fun s hs => by cases hs; decide)

/-- C3: a verified `payment_intent.succeeded` event with a non-empty
`invoice` reference produces zero notification sends and a 200 response. -/
theorem c3_pi_with_invoice_short_circuits (env : Env)
    (subsRetrieve : String → Except String Subscription)
    (custRetrieve : String → Except String Customer) (sendOk : EmailMsg → Bool)
    (pi : PaymentIntent) (h : truthy pi.invoice = true) :
    webhookHandler env subsRetrieve custRetrieve sendOk (.paymentIntentSucceeded pi) =
      { status := 200, body := "", sends := [], lookups := [], logs := [] } := by
  simp [webhookHandler, h]

/-- Witness for C3: a concrete payment intent carrying an invoice id. -/
theorem c3_pi_with_invoice_short_circuits_witness :
    truthy (some "in_123" : Option String) = true ∧
    webhookHandler {} noSubsLookup noCustLookup alwaysSendOk
        (.paymentIntentSucceeded
          { invoice := some "in_123", amount := 500,
            receipt_email := some "donor@example.org", metadata := none }) =
      { status := 200, body := "", sends := [], lookups := [], logs := [] } :=
  ⟨by decide,
   c3_pi_with_invoice_short_circuits {} noSubsLookup noCustLookup alwaysSendOk _
     (by decide)⟩

/-- C10: with `SENDGRID_API_KEY` unset, no email send is attempted on any
handling path of any verified event, and the response is still 200. -/
theorem c10_no_sends_without_api_key (env : Env)
    (subsRetrieve : String → Except String Subscription)
    (custRetrieve : String → Except String Customer) (sendOk : EmailMsg → Bool)
    (ev : StripeEvent) (h : env.sendgridApiKey = none) :
    (webhookHandler env subsRetrieve custRetrieve sendOk ev).sends = [] ∧
    (webhookHandler env subsRetrieve custRetrieve sendOk ev).status = 200 := by
  have ht : truthy env.sendgridApiKey = false := by rw [h]; rfl
  cases ev with
  | checkoutSessionCompleted session =>
      simp [webhookHandler, handleCheckout, twoSends, ht]
  | paymentIntentSucceeded pi =>
      by_cases hinv : truthy pi.invoice = true
      · simp [webhookHandler, hinv]
      · simp [webhookHandler, handlePaymentIntent, twoSends, ht,
          Bool.not_eq_true _ ▸ hinv]
  | invoicePaymentSucceeded invoice =>
      simp [webhookHandler, handleInvoice, twoSends, ht]
  | unrecognized t => simp [webhookHandler]

/-- Witness for C10: a checkout event with a donor email and configured
internal recipients, but no SendGrid key. -/
theorem c10_no_sends_without_api_key_witness :
    (webhookHandler ⟨none, some "ops@example.org", true⟩ noSubsLookup noCustLookup
        alwaysSendOk
        (.checkoutSessionCompleted
          { customer_email := some "donor@example.org", metadata := none,
            amount_total := 2550 })).sends = [] ∧
    (webhookHandler ⟨none, some "ops@example.org", true⟩ noSubsLookup noCustLookup
        alwaysSendOk
        (.checkoutSessionCompleted
          { customer_email := some "donor@example.org", metadata := none,
            amount_total := 2550 })).status = 200 :=
  c10_no_sends_without_api_key _ noSubsLookup noCustLookup alwaysSendOk _ rfl

/-- The attempted sends of a handling path depend only on the guards and
message contents, never on send outcomes. -/
lemma twoSends_sends_indep (f g : EmailMsg → Bool) (c1 : Bool) (m1 : EmailMsg)
    (l1 : LogEntry) (c2 : Bool) (m2 : EmailMsg) (l2 : LogEntry) :
    (twoSends f c1 m1 l1 c2 m2 l2).1 = (twoSends g c1 m1 l1 c2 m2 l2).1 := by
  cases c1 <;> cases c2 <;> simp [twoSends, attemptSend]

/-- The attempted sends of a handling path, explicitly. -/
lemma twoSends_sends (f : EmailMsg → Bool) (c1 : Bool) (m1 : EmailMsg) (l1 : LogEntry)
    (c2 : Bool) (m2 : EmailMsg) (l2 : LogEntry) :
    (twoSends f c1 m1 l1 c2 m2 l2).1 =
      (if c1 then [m1] else []) ++ (if c2 then [m2] else []) := by
  cases c1 <;> cases c2 <;> simp [twoSends, attemptSend]

/-- Each failed send contributes exactly one send-failure log entry. -/
lemma twoSends_fail_count (f : EmailMsg → Bool) (c1 : Bool) (m1 : EmailMsg)
    (l1 : LogEntry) (c2 : Bool) (m2 : EmailMsg) (l2 : LogEntry)
    (h1 : l1.isSendFailure = true) (h2 : l2.isSendFailure = true) :
    (twoSends f c1 m1 l1 c2 m2 l2).2.countP (fun l => l.isSendFailure) =
      (twoSends f c1 m1 l1 c2 m2 l2).1.countP (fun m => !(f m)) := by
  cases c1 <;> cases c2 <;> cases hf1 : f m1 <;> cases hf2 : f m2 <;>
    simp [twoSends, attemptSend, hf1, hf2, h1, h2]

/-- The warnings recorded by invoice enrichment are never send-failure
log entries. -/
lemma expandInvoice_warnings_not_send_failures
    (subsRetrieve : String → Except String Subscription)
    (custRetrieve : String → Except String Customer) (invoice : Invoice) :
    (expandInvoice subsRetrieve custRetrieve invoice).warnings.countP
      (fun l => l.isSendFailure) = 0 := by
  cases h : jsOrNull invoice.subscription with
  | none => simp [expandInvoice, h]
  | some subId =>
      cases hs : subsRetrieve subId with
      | error e => simp [expandInvoice, h, hs, LogEntry.isSendFailure]
      | ok sub =>
          by_cases hc : ((jsOrNull invoice.customer_email).isNone &&
              truthy sub.customer) = true
          · cases hcust : custRetrieve (sub.customer.getD "") with
            | error e =>
                simp [expandInvoice, h, hs, hc, hcust, LogEntry.isSendFailure]
            | ok c => simp [expandInvoice, h, hs, hc, hcust]
          · simp [expandInvoice, h, hs, hc]

/-- C4: within one webhook delivery the donor and internal sends are
independent: the attempted sends never depend on send outcomes (so a donor
failure cannot prevent the internal send, nor vice versa), each failed send
is logged individually, and the HTTP response stays 200. -/
theorem c4_donor_internal_sends_independent (env : Env)
    (subsRetrieve : String → Except String Subscription)
    (custRetrieve : String → Except String Customer)
    (f g : EmailMsg → Bool) (ev : StripeEvent) :
    (webhookHandler env subsRetrieve custRetrieve f ev).sends =
      (webhookHandler env subsRetrieve custRetrieve g ev).sends ∧
    (webhookHandler env subsRetrieve custRetrieve f ev).status = 200 ∧
    (webhookHandler env subsRetrieve custRetrieve f ev).logs.countP
        (fun l => l.isSendFailure) =
      (webhookHandler env subsRetrieve custRetrieve f ev).sends.countP
        (fun m => !(f m)) := by
  cases ev with
  | checkoutSessionCompleted session =>
      exact ⟨twoSends_sends_indep f g _ _ _ _ _ _, rfl,
        twoSends_fail_count f _ _ _ _ _ _ rfl rfl⟩
  | paymentIntentSucceeded pi =>
      by_cases hinv : truthy pi.invoice = true
      · simp [webhookHandler, hinv]
      · have hinv' : truthy pi.invoice = false := by
          cases h : truthy pi.invoice
          · rfl
          · exact absurd h hinv
        refine ⟨?_, ?_, ?_⟩
        · simp only [webhookHandler, hinv', Bool.false_eq_true, if_false]
          exact twoSends_sends_indep f g _ _ _ _ _ _
        · simp [webhookHandler, hinv']
        · simp only [webhookHandler, hinv', Bool.false_eq_true, if_false]
          exact twoSends_fail_count f _ _ _ _ _ _ rfl rfl
  | invoicePaymentSucceeded invoice =>
      refine ⟨twoSends_sends_indep f g _ _ _ _ _ _, rfl, ?_⟩
      show ((expandInvoice subsRetrieve custRetrieve invoice).warnings ++
          (handleInvoice env f (expandInvoice subsRetrieve custRetrieve invoice).donorEmail
            (expandInvoice subsRetrieve custRetrieve invoice).md
            invoice.amount_paid).2).countP _ = _
      rw [List.countP_append, expandInvoice_warnings_not_send_failures, Nat.zero_add]
      exact twoSends_fail_count f _ _ _ _ _ _ rfl rfl
  | unrecognized t => exact ⟨rfl, rfl, rfl⟩

/-- C5: on the invoice path, lookup failures never abort handling — the
response is always 200, the notifications are produced from whatever donor
email and metadata the enrichment resolved; an invoice without a
subscription reference (or whose subscription lookup fails) is handled with
only `customer_email` and all-default metadata. -/
theorem c5_invoice_lookup_failures_recovered (env : Env)
    (subsRetrieve : String → Except String Subscription)
    (custRetrieve : String → Except String Customer)
    (sendOk : EmailMsg → Bool) (invoice : Invoice) :
    (webhookHandler env subsRetrieve custRetrieve sendOk
        (.invoicePaymentSucceeded invoice)).status = 200 ∧
    (webhookHandler env subsRetrieve custRetrieve sendOk
        (.invoicePaymentSucceeded invoice)).sends =
      (if truthy env.sendgridApiKey &&
          (expandInvoice subsRetrieve custRetrieve invoice).donorEmail.isSome then
        [invoiceDonorMsg env
          ((expandInvoice subsRetrieve custRetrieve invoice).donorEmail.getD "")
          (expandInvoice subsRetrieve custRetrieve invoice).md invoice.amount_paid]
       else []) ++
      (if truthy env.sendgridApiKey && truthy env.internalEmails then
        [invoiceInternalMsg env
          (expandInvoice subsRetrieve custRetrieve invoice).donorEmail
          (expandInvoice subsRetrieve custRetrieve invoice).md invoice.amount_paid]
       else []) ∧
    expandInvoice subsRetrieve custRetrieve { invoice with subscription := none } =
      ⟨jsOrNull invoice.customer_email, {}, [], []⟩ ∧
    (∀ msg : String,
      expandInvoice (fun _ => .error msg) custRetrieve invoice =
        match jsOrNull invoice.subscription with
        | none => ⟨jsOrNull invoice.customer_email, {}, [], []⟩
        | some subId => ⟨jsOrNull invoice.customer_email, {},
            [.subscriptionRetrieve subId], [.expandWarning msg]⟩) := by
  refine ⟨rfl, ?_, ?_, ?_⟩
  · exact twoSends_sends sendOk _ _ _ _ _ _
  · simp [expandInvoice, jsOrNull]
  · intro msg
    cases h : jsOrNull invoice.subscription with
    | none => simp [expandInvoice, h]
    | some subId => simp [expandInvoice, h]

/-- C7 counterexample: on the `payment_intent.succeeded` path the donor
subject does not differentiate one-time vs monthly wording — two intents
differing only in their `metadata.frequency` (`"monthly"` vs `"one_time"`)
produce the identical donor subject `"Thank you for your donation!"`. -/
theorem c7_counterexample_pi_subject_constant :
    ((webhookHandler ⟨some "SG", none, true⟩ noSubsLookup noCustLookup alwaysSendOk
        (.paymentIntentSucceeded
          { invoice := none, amount := 1000,
            receipt_email := some "donor@example.org",
            metadata := some { frequency := some "monthly" } })).sends.map
        (fun m => m.subject)) =
      ((webhookHandler ⟨some "SG", none, true⟩ noSubsLookup noCustLookup alwaysSendOk
        (.paymentIntentSucceeded
          { invoice := none, amount := 1000,
            receipt_email := some "donor@example.org",
            metadata := some { frequency := some "one_time" } })).sends.map
        (fun m => m.subject)) ∧
    ((webhookHandler ⟨some "SG", none, true⟩ noSubsLookup noCustLookup alwaysSendOk
        (.paymentIntentSucceeded
          { invoice := none, amount := 1000,
            receipt_email := some "donor@example.org",
            metadata := some { frequency := some "monthly" } })).sends.map
        (fun m => m.subject)) = ["Thank you for your donation!"] := by
  constructor <;> rfl

/-- A donor subject composed under a one-time handling is either the
checkout path's one-time wording or the payment-intent path's fixed
wording. -/
lemma subject_of_one_time (e : StripeEvent) (s : String)
    (hf : handledFrequency e = some "one_time") (hs : handledDonorSubject e = some s) :
    s = "Thank you for your one-time donation!" ∨ s = "Thank you for your donation!" := by
  cases e with
  | checkoutSessionCompleted session =>
      left
      simp only [handledFrequency, Option.some.injEq] at hf
      simp only [handledDonorSubject, Option.some.injEq] at hs
      rw [← hs, checkoutDonorSubject, hf]
      decide
  | paymentIntentSucceeded pi =>
      cases hpi : truthy pi.invoice with
      | true =>
          simp only [handledFrequency, hpi, if_true] at hf
          exact Option.noConfusion hf
      | false =>
          right
          simp only [handledDonorSubject, hpi, Bool.false_eq_true, if_false,
            Option.some.injEq] at hs
          rw [← hs, piDonorSubject]
  | invoicePaymentSucceeded invoice =>
      simp only [handledFrequency, Option.some.injEq] at hf
      exact absurd hf (by decide)
  | unrecognized t => exact Option.noConfusion hf

/-- A donor subject composed under a monthly handling is always the monthly
wording. -/
lemma subject_of_monthly (e : StripeEvent) (s : String)
    (hf : handledFrequency e = some "monthly") (hs : handledDonorSubject e = some s) :
    s = "Thank you for your monthly donation!" := by
  cases e with
  | checkoutSessionCompleted session =>
      simp only [handledFrequency, Option.some.injEq] at hf
      simp only [handledDonorSubject, Option.some.injEq] at hs
      rw [← hs, checkoutDonorSubject, hf]
      decide
  | paymentIntentSucceeded pi =>
      cases hpi : truthy pi.invoice with
      | true =>
          simp only [handledFrequency, hpi, if_true] at hf
          exact Option.noConfusion hf
      | false =>
          simp only [handledFrequency, hpi, Bool.false_eq_true, if_false,
            Option.some.injEq] at hf
          exact absurd hf (by decide)
  | invoicePaymentSucceeded invoice =>
      simp only [handledDonorSubject, Option.some.injEq] at hs
      rw [← hs, invoiceDonorSubject]
  | unrecognized t => exact Option.noConfusion hf

/-- C7 amended: the checkout path's donor subject differentiates monthly
from non-monthly frequencies; the payment-intent path's donor subject is
one fixed string regardless of any frequency metadata (that path only
handles one-time donations); and across all classified paths, a donor
subject produced under a one-time handling always differs from one
produced under a monthly handling. -/
theorem c7_amended_donor_subject_wording :
    (∀ s s' : CheckoutSession,
        handledFrequency (.checkoutSessionCompleted s) = some "monthly" →
        handledFrequency (.checkoutSessionCompleted s') ≠ some "monthly" →
        handledDonorSubject (.checkoutSessionCompleted s) ≠
          handledDonorSubject (.checkoutSessionCompleted s')) ∧
    (∀ pi pi' : PaymentIntent, truthy pi.invoice = false → truthy pi'.invoice = false →
        handledDonorSubject (.paymentIntentSucceeded pi) =
          handledDonorSubject (.paymentIntentSucceeded pi')) ∧
    (∀ e1 e2 : StripeEvent, ∀ s1 s2 : String,
        handledFrequency e1 = some "one_time" → handledFrequency e2 = some "monthly" →
        handledDonorSubject e1 = some s1 → handledDonorSubject e2 = some s2 →
        s1 ≠ s2) := by
  refine ⟨?_, ?_, ?_⟩
  · intro s s' h1 h2
    have h1' : jsOrD ((s.metadata.getD {}).frequency) "one_time" = "monthly" := by
      simpa [handledFrequency] using h1
    have h2' : ¬ jsOrD ((s'.metadata.getD {}).frequency) "one_time" = "monthly" := by
      simpa [handledFrequency] using h2
    simp only [handledDonorSubject, checkoutDonorSubject, h1',
      beq_eq_false_iff_ne.mpr h2', beq_self_eq_true, if_true, Bool.false_eq_true,
      if_false, Option.some.injEq]
    decide
  · intro pi pi' h h'
    simp only [handledDonorSubject, h, h']
  · intro e1 e2 s1 s2 hf1 hf2 hs1 hs2
    have h2 := subject_of_monthly e2 s2 hf2 hs2
    rcases subject_of_one_time e1 s1 hf1 hs1 with h1 | h1 <;> rw [h1, h2] <;> decide

/-- Witness for C7's amended theorem: the empty checkout session (one-time)
and the empty invoice event (monthly) applied to its third conjunct. -/
theorem c7_amended_donor_subject_wording_witness :
    handledFrequency (.checkoutSessionCompleted {}) = some "one_time" ∧
    handledFrequency (.invoicePaymentSucceeded {}) = some "monthly" ∧
    handledDonorSubject (.checkoutSessionCompleted {}) =
      some "Thank you for your one-time donation!" ∧
    handledDonorSubject (.invoicePaymentSucceeded {}) =
      some "Thank you for your monthly donation!" ∧
    "Thank you for your one-time donation!" ≠ "Thank you for your monthly donation!" :=
  ⟨rfl, rfl, rfl, rfl,
   c7_amended_donor_subject_wording.2.2 (.checkoutSessionCompleted {})
     (.invoicePaymentSucceeded {}) _ _ rfl rfl rfl rfl⟩

end DonationServer
